import Mathlib

/-!
# Verification of `manga` EPUB export (`src/ports/libcore/src/export/epub.rs`)

Shallow embedding of the EPUB export module of the `manga` repository.
The Tera templates of the source are embedded as the strings they render to:
a fixed template instantiated with the context variables.  The `{% for p in
plist %}` loops are embedded as structural recursion over `page_list`, one
body instantiation per element, exactly as Tera evaluates them.  `Tera::one_off`
fails (and the source's `.unwrap()` panics) when the template dereferences
`plist.0` on an empty page list; this fallibility is embedded as `Option`.
Filesystem state is an explicit record of files and directories, and the two
external collaborators (`storage::from_section`, `archive::doit`) are
parameters of `save`.
-/

set_option maxRecDepth 10000
set_option maxHeartbeats 1600000

namespace Manga

/-- Modelled from the spec: `Platform` (declared outside `src/`) — descriptor
of the source site with display name and base URL. -/
structure Platform where
  name : String
  url : String
deriving Repr, DecidableEq

/-- Modelled from the spec: `Page` (declared outside `src/`) — one image of a
collection: index `p` (as accessed by `page.p` in the source), remote image
location, file extension and matching MIME type. -/
structure Page where
  p : Nat
  url : String
  extension : String
  mime : String
deriving Repr, DecidableEq

/-- Modelled from the spec: `Section` (declared outside `src/`) — one
exportable unit: a name, a source URL, and the ordered page list. -/
structure Section where
  name : String
  url : String
  page_list : List Page
deriving Repr, DecidableEq

/-- The `Epub` export session (`src/ports/libcore/src/export/epub.rs:9`). -/
structure Epub where
  platform : Platform
  «section» : Section
  uuid : String
deriving Repr, DecidableEq

/-- `Epub::new` (`epub.rs:16`).  `Uuid::new_v4()` is a random draw; the
randomness is supplied externally as the `uuid` argument. -/
def Epub.new (platform : Platform) (sec : Section) (uuid : String) : Epub :=
  { platform := platform, «section» := sec, uuid := uuid }

/-- Modelled from the spec: the crate-wide `VERSION` tag (declared outside
`src/`), a fixed string used only in attribution text. -/
def VERSION : String := "0.0.0"

/-- `render_start_xhtml` (`epub.rs:25`): the attribution/copyright page,
i.e. the fixed template instantiated with section name, platform URL and
name, the fixed operator tag and the version tag. -/
def render_start_xhtml (e : Epub) : String :=
  "<?xml version=\"1.0\" encoding=\"UTF-8\"?>\n<html xmlns=\"http://www.w3.org/1999/xhtml\" lang=\"en\">\n   <head>\n      <title>"
    ++ e.«section».name
    ++ " - 关于</title>\n      <link href=\"stylesheet.css\" rel=\"stylesheet\" type=\"text/css\" />\n   </head>\n   <body>\n      <h1>版权信息</h1>\n      <p>图书名："
    ++ e.«section».name
    ++ "</p>\n      <p>\n         来源于：<a href=\""
    ++ e.platform.url
    ++ "\">"
    ++ e.platform.name
    ++ "</a>\n      </p>\n      <p>操作人：manga-bot("
    ++ VERSION
    ++ ")</p>\n      <hr />\n      <p>\n         本图书由开源项目:\n         <a href=\"https://manga.bluerain.io\">MANGA-RS</a>\n         生成，资源来自于第三方。\n      </p>\n      <strong>注：公开传播则意味着存在被版权方追究责任的风险。</strong>\n   </body>\n</html>"

/-- `render_page_html` (`epub.rs:60`): the per-page viewer document for a
page label and an image href.  It takes `&self` but uses none of it, so it
is embedded without the receiver. -/
def render_page_html (name : String) (src : String) : String :=
  "<?xml version=\"1.0\" encoding=\"UTF-8\"?>\n<html xmlns=\"http://www.w3.org/1999/xhtml\">\n   <head>\n      <title>"
    ++ name
    ++ "</title>\n      <link href=\"stylesheet.css\" rel=\"stylesheet\" type=\"text/css\" />\n   </head>\n   <body class=\"album\">\n      <img class=\"albumimg\" src=\""
    ++ src
    ++ "\" />\n   </body>\n</html>"

/-- One `<item>` pair emitted by the manifest `{% for p in plist %}` loop of
`render_metadata_opf` (`epub.rs:98`): first the page document item. -/
def opfPageDocItem (pg : Page) : String :=
  "\n      <item href=\"" ++ toString pg.p ++ ".html\" id=\"page" ++ toString pg.p
    ++ "\" media-type=\"application/xhtml+xml\" />"

/-- The image item of the same loop iteration (`epub.rs:100`), with the
trailing inter-item whitespace of the template body. -/
def opfImageItem (pg : Page) : String :=
  "\n      <item href=\"" ++ toString pg.p ++ "." ++ pg.extension ++ "\" id=\"img"
    ++ toString pg.p ++ "\" media-type=\"" ++ pg.mime ++ "\" />\n      "

/-- The manifest for-loop of `render_metadata_opf` (`epub.rs:98`): one body
instantiation per page, in `page_list` order. -/
def opfManifestLoop : List Page → String
  | [] => ""
  | pg :: rest => opfPageDocItem pg ++ opfImageItem pg ++ opfManifestLoop rest

/-- One `<itemref>` emitted by the spine `{% for p in plist %}` loop
(`epub.rs:106`). -/
def opfSpineItemref (pg : Page) : String :=
  "\n      <itemref idref=\"page" ++ toString pg.p ++ "\" />\n      "

/-- The spine for-loop of `render_metadata_opf` (`epub.rs:106`). -/
def opfSpineLoop : List Page → String
  | [] => ""
  | pg :: rest => opfSpineItemref pg ++ opfSpineLoop rest

/-- Text of the manifest template (`epub.rs:82`–`epub.rs:87`) up to the
`{{ title }}` hole. -/
def opfHeadA : String :=
  "<?xml version=\"1.0\" encoding=\"UTF-8\"?>\n<package xmlns=\"http://www.idpf.org/2007/opf\" unique-identifier=\"uuid_id\" version=\"2.0\">\n   <metadata xmlns:dc=\"http://purl.org/dc/elements/1.1/\" xmlns:opf=\"http://www.idpf.org/2007/opf\">\n      <dc:title>"

/-- Text of the manifest template between the `{{ title }}` hole and the
`{{ uuid }}` hole (`epub.rs:85`–`epub.rs:87`). -/
def opfHeadB : String :=
  "</dc:title>\n      <dc:creator opf:role=\"aut\" opf:file-as=\"MANGA-BOT\">MANGA-BOT</dc:creator>\n      <dc:identifier opf:scheme=\"uuid\" id=\"uuid_id\">"

/-- Text of the manifest template after the `{{ uuid }}` hole up to the end
of the three fixed manifest entries (`epub.rs:87`–`epub.rs:97`), with the
`{{ version }}` and `{{ date_time }}` holes filled. -/
def opfHeadC (date_time : String) : String :=
  "</dc:identifier>\n      <dc:publisher>manga.bluerain.io</dc:publisher>\n      <dc:contributor opf:file-as=\"manga-rs\" opf:role=\"bkp\">manga-rs ("
    ++ VERSION
    ++ ") [https://manga.bluerain.io]</dc:contributor>\n      <dc:date>"
    ++ date_time
    ++ "</dc:date>\n      <dc:language>eng</dc:language>\n      <meta name=\"cover\" content=\"cover\" />\n   </metadata>\n   <manifest>\n      <item href=\"toc.ncx\" id=\"ncx\" media-type=\"application/x-dtbncx+xml\" />\n      <item href=\"stylesheet.css\" id=\"id33\" media-type=\"text/css\" />\n      <item href=\"start.xhtml\" id=\"start\" media-type=\"application/xhtml+xml\" />\n      "

/-- The head of the rendered manifest (`epub.rs:82`–`epub.rs:97`): fixed
package/metadata block instantiated with title, uuid, version and timestamp,
followed by the three fixed manifest entries (navigation `toc.ncx`,
stylesheet, start document). -/
def opfHead (title uuid date_time : String) : String :=
  opfHeadA ++ title ++ opfHeadB ++ uuid ++ opfHeadC date_time

/-- The cover manifest entry (`epub.rs:102`): `plist.0` is the FIRST element
of `page_list` (positional, not the page whose index field is 0). -/
def opfCoverItem (p0 : Page) : String :=
  "<item href=\"cover." ++ p0.extension ++ "\" id=\"cover\" media-type=\"" ++ p0.mime ++ "\" />"

/-- The text between the cover item and the spine loop (`epub.rs:103`–
`epub.rs:105`): close of the manifest, spine opening, fixed start itemref. -/
def opfSpineHead : String :=
  "\n   </manifest>\n   <spine toc=\"ncx\">\n      <itemref idref=\"start\" />\n      "

/-- The tail of the rendered manifest (`epub.rs:109`–`epub.rs:111`). -/
def opfTail : String :=
  "\n   </spine>\n   <guide />\n</package>"

/-- `render_metadata_opf` (`epub.rs:80`).  The template dereferences
`plist.0`; on an empty `page_list` Tera reports a missing variable, so
`Tera::one_off` returns an error and the source's `.unwrap()` panics —
embedded as `none`.  The RFC-3339 timestamp of `Utc::now()` is supplied
externally as `date_time`. -/
def render_metadata_opf (e : Epub) (date_time : String) : Option String :=
  match e.«section».page_list with
  | [] => none
  | p0 :: _ =>
    some (opfHead e.«section».name e.uuid date_time
      ++ opfManifestLoop e.«section».page_list
      ++ "\n      " ++ opfCoverItem p0
      ++ opfSpineHead
      ++ opfSpineLoop e.«section».page_list
      ++ opfTail)

/-- `render_stylesheet` (`epub.rs:123`): a fixed stylesheet.  It takes
`&self` but uses none of it, so it is embedded without the receiver. -/
def render_stylesheet : String :=
  "* \x7b\n   padding: 0;\n   margin: 0;\n\x7d\n\n.album \x7b\n   background: #000000;\n   height: 100%;\n   text-align: center;\n   vertical-align: top;\n\x7d\n\n.albumimg \x7b\n   margin: 0;\n   height: 100%;\n   text-align: center;\n   vertical-align: top;\n\x7d"

/-- One `<navPoint>` emitted by the `{% for p in plist %}` loop of
`render_toc_ncx` (`epub.rs:169`): id and playOrder are the page index, the
label is the index followed by the `P` suffix marker, the content target is
the page's generated document `{index}.html`. -/
def ncxNavPoint (pg : Page) : String :=
  "\n      <navPoint id=\"navPoint-" ++ toString pg.p ++ "\" playOrder=\"" ++ toString pg.p
    ++ "\">\n         <navLabel>\n            <text>" ++ toString pg.p
    ++ "P</text>\n         </navLabel>\n         <content src=\"" ++ toString pg.p
    ++ ".html\" />\n      </navPoint>\n      "

/-- The navigation for-loop of `render_toc_ncx` (`epub.rs:169`). -/
def ncxLoop : List Page → String
  | [] => ""
  | pg :: rest => ncxNavPoint pg ++ ncxLoop rest

/-- Text of the navigation template (`epub.rs:150`–`epub.rs:153`) up to the
`{{ uuid }}` hole of the `dtb:uid` metadata. -/
def ncxHeadA : String :=
  "<?xml version=\"1.0\" encoding=\"UTF-8\"?>\n<ncx xmlns=\"http://www.daisy.org/z3986/2005/ncx/\" version=\"2005-1\" xml:lang=\"en\">\n   <head>\n      <meta content=\""

/-- Text of the navigation template after the `{{ uuid }}` hole up to the
opening of the `navMap` (`epub.rs:153`–`epub.rs:162`), with the `{{ name }}`
hole filled. -/
def ncxHeadB (name : String) : String :=
  "\" name=\"dtb:uid\" />\n      <meta content=\"2\" name=\"dtb:depth\" />\n      <meta content=\"manga-rs\" name=\"dtb:generator\" />\n      <meta content=\"0\" name=\"dtb:totalPageCount\" />\n      <meta content=\"0\" name=\"dtb:maxPageNumber\" />\n   </head>\n   <docTitle>\n      <text>"
    ++ name
    ++ "</text>\n   </docTitle>\n   <navMap>"

/-- The head of the rendered navigation document (`epub.rs:150`–
`epub.rs:161`): fixed metadata with the session uuid as `dtb:uid`, then the
document title. -/
def ncxHead (uuid name : String) : String :=
  ncxHeadA ++ uuid ++ ncxHeadB name

/-- The fixed root navigation point (`epub.rs:163`–`epub.rs:168`): the
attribution page, fixed label `关于`, fixed play-order `0`, target
`start.xhtml`. -/
def ncxRootNavPoint : String :=
  "\n      <navPoint id=\"navPoint-00\" playOrder=\"0\">\n         <navLabel>\n            <text>关于</text>\n         </navLabel>\n         <content src=\"start.xhtml\" />\n      </navPoint>\n      "

/-- The tail of the rendered navigation document (`epub.rs:177`). -/
def ncxTail : String :=
  "\n   </navMap>\n</ncx>"

/-- `render_toc_ncx` (`epub.rs:148`). -/
def render_toc_ncx (e : Epub) : String :=
  ncxHead e.uuid e.«section».name
    ++ ncxRootNavPoint
    ++ ncxLoop e.«section».page_list
    ++ ncxTail

/-- `render_container_xml` (`epub.rs:188`): the fixed OCF container
descriptor.  It takes `&self` but uses none of it, so it is embedded
without the receiver. -/
def render_container_xml : String :=
  "<?xml version=\"1.0\" encoding=\"UTF-8\"?>\n<container xmlns=\"urn:oasis:names:tc:opendocument:xmlns:container\" version=\"1.0\">\n   <rootfiles>\n      <rootfile full-path=\"metadata.opf\" media-type=\"application/oebps-package+xml\" />\n   </rootfiles>\n</container>"

/-! ## Filesystem model and the export orchestrator `save` -/

/-- Explicit filesystem state: written files (newest first, so `lookup`
returns the most recent write to a path) and created directories. -/
structure FS where
  files : List (String × String)
  dirs : List String
deriving Repr, DecidableEq

/-- Read the current content of a path, `none` when absent. -/
def FS.lookup (fs : FS) (path : String) : Option String :=
  fs.files.lookup path

/-- `File::create` + `write_all`: (over)write a file. -/
def FS.write (fs : FS) (path content : String) : FS :=
  { fs with files := (path, content) :: fs.files }

/-- `std::fs::create_dir_all`: record a directory (idempotent in effect). -/
def FS.mkdirAll (fs : FS) (d : String) : FS :=
  { fs with dirs := d :: fs.dirs }

/-- The error classes `save` can surface (`epub.rs:203`): acquisition
failure from `storage::from_section`, an I/O failure of `std::fs::copy`
when the origin file is absent, the templater panic on an empty page list
(modelled as an error class), and archive failure from `archive::doit`. -/
inductive SaveErr where
  | acquisitionFailure
  | copyFailure (origin_path : String)
  | templateFailure
  | archiveFailure (src dst : String)
deriving Repr, DecidableEq

/-- Modelled from the spec: the two external collaborators of `save`, whose
code is outside `src/`.  `acquire` is `storage::from_section(&mut section)?
.finish()`: it downloads every page image into the origins directory and may
update the page data (and nothing else) of the Section, so it is embedded as
a function from the Section to either an updated page list together with the
origin files it wrote, or an acquisition error.  `archive` is
`archive::doit(src, dst)`: from the current tree, a source directory and a
destination path it produces the packaged file's content, or fails. -/
structure Collaborators where
  acquire : Section → Except Unit (List Page × List (String × String))
  archive : FS → String → String → Option String

/-- Outcome of `save`: the returned `Result`, the final session value
(`save` takes `&mut self`), the final filesystem, and the chronological
trace of the file writes performed by `save` itself (origin files written by
the acquisition collaborator and the archiver's output file are recorded in
`fs` but are not writes of `save`). -/
structure SaveResult where
  res : Except SaveErr String
  epub : Epub
  fs : FS
  writes : List (String × String)
deriving Repr

/-- The cache directory of a section name (`epub.rs:209`):
`manga_res/{name}/.cache`. -/
def cacheDirOf (name : String) : String :=
  "manga_res/" ++ name ++ "/.cache"

/-- The origins path of an image file (`epub.rs:227`):
`manga_res/{name}/origins/{img_name}`. -/
def originPathOf (name img_name : String) : String :=
  "manga_res/" ++ name ++ "/origins/" ++ img_name

/-- The per-page body of `save`'s loop (`epub.rs:218`–`epub.rs:239`): write
the viewer document, copy the origin image under its final image filename
(failing if the origin is absent), and for the page of index 0 additionally
copy the origin image to the cover filename. -/
def pagesLoop (name cache_dir : String) :
    List Page → FS → List (String × String) →
    Except SaveErr Unit × FS × List (String × String)
  | [], fs, ws => (Except.ok (), fs, ws)
  | pg :: rest, fs, ws =>
    let img_name := toString pg.p ++ "." ++ pg.extension
    let html_path := cache_dir ++ "/" ++ (toString pg.p ++ ".html")
    let html := render_page_html (toString pg.p) img_name
    let fs := fs.write html_path html
    let ws := ws ++ [(html_path, html)]
    let origin_path := originPathOf name img_name
    match fs.lookup origin_path with
    | none => (Except.error (SaveErr.copyFailure origin_path), fs, ws)
    | some content =>
      let img_path := cache_dir ++ "/" ++ img_name
      let fs := fs.write img_path content
      let ws := ws ++ [(img_path, content)]
      if pg.p = 0 then
        let cover_path := cache_dir ++ "/" ++ ("cover." ++ pg.extension)
        pagesLoop name cache_dir rest (fs.write cover_path content)
          (ws ++ [(cover_path, content)])
      else
        pagesLoop name cache_dir rest fs ws

/-- `save` (`epub.rs:203`): acquisition, directory creation, artifact
writes (attribution page, per-page loop, manifest, mimetype marker,
stylesheet, navigation, container descriptor), archiving, and the returned
destination path `{output_dir}/{section.name}.epub`. -/
def save (col : Collaborators) (e : Epub) (output_dir : String)
    (date_time : String) (fs : FS) : SaveResult :=
  match col.acquire e.«section» with
  | Except.error _ => ⟨Except.error SaveErr.acquisitionFailure, e, fs, []⟩
  | Except.ok (pages', origins) =>
    let sec' := { e.«section» with page_list := pages' }
    let e' : Epub := { e with «section» := sec' }
    let fs := origins.foldl (fun f pr => f.write pr.1 pr.2) fs
    let fs := fs.mkdirAll output_dir
    let cache_dir := cacheDirOf sec'.name
    let fs := fs.mkdirAll cache_dir
    let meta_dir := cache_dir ++ "/META-INF"
    let fs := fs.mkdirAll meta_dir
    let start_path := cache_dir ++ "/" ++ "start.xhtml"
    let fs := fs.write start_path (render_start_xhtml e')
    let ws := [(start_path, render_start_xhtml e')]
    match pagesLoop sec'.name cache_dir pages' fs ws with
    | (Except.error err, fs, ws) => ⟨Except.error err, e', fs, ws⟩
    | (Except.ok (), fs, ws) =>
      match render_metadata_opf e' date_time with
      | none => ⟨Except.error SaveErr.templateFailure, e', fs, ws⟩
      | some opf =>
        let fs := fs.write (cache_dir ++ "/" ++ "metadata.opf") opf
        let ws := ws ++ [(cache_dir ++ "/" ++ "metadata.opf", opf)]
        let fs := fs.write (cache_dir ++ "/" ++ "mimetype") "application/epub+zip"
        let ws := ws ++ [(cache_dir ++ "/" ++ "mimetype", "application/epub+zip")]
        let fs := fs.write (cache_dir ++ "/" ++ "stylesheet.css") render_stylesheet
        let ws := ws ++ [(cache_dir ++ "/" ++ "stylesheet.css", render_stylesheet)]
        let fs := fs.write (cache_dir ++ "/" ++ "toc.ncx") (render_toc_ncx e')
        let ws := ws ++ [(cache_dir ++ "/" ++ "toc.ncx", render_toc_ncx e')]
        let fs := fs.write (meta_dir ++ "/container.xml") render_container_xml
        let ws := ws ++ [(meta_dir ++ "/container.xml", render_container_xml)]
        let dst_file := output_dir ++ "/" ++ sec'.name ++ ".epub"
        let packed : Except SaveErr String × FS :=
          match col.archive fs cache_dir dst_file with
          | none => (Except.error (SaveErr.archiveFailure cache_dir dst_file), fs)
          | some pkg => (Except.ok dst_file, fs.write dst_file pkg)
        ⟨packed.1, e', packed.2, ws⟩

/-! ## Generic string helpers -/

/-- Concatenation of a list of strings. -/
def joinStr : List String → String
  | [] => ""
  | s :: rest => s ++ joinStr rest

/-- A character list that starts with a decimal digit character. -/
def digitHeaded (l : List Char) : Prop :=
  ∃ m, m < 10 ∧ ∃ rest, l = Nat.digitChar m :: rest

/-- Everything after the first occurrence of `pat`, or `none` when `pat`
does not occur. -/
def dropThrough (pat : List Char) : List Char → Option (List Char)
  | [] => if pat.isPrefixOf ([] : List Char) then some [] else none
  | c :: cs =>
    if pat.isPrefixOf (c :: cs) then some ((c :: cs).drop pat.length)
    else dropThrough pat cs

/-- Everything before the first occurrence of `pat`, or `none` when `pat`
does not occur. -/
def takeUntil (pat : List Char) : List Char → Option (List Char)
  | [] => if pat.isPrefixOf ([] : List Char) then some [] else none
  | c :: cs =>
    if pat.isPrefixOf (c :: cs) then some []
    else (takeUntil pat cs).map (fun t => c :: t)

/-- The text strictly between the first occurrence of `pre` and the next
occurrence of `post` in `s`. -/
def extractBetween (pre post s : String) : Option String :=
  (dropThrough pre.data s.data).bind fun t =>
    (takeUntil post.data t).map fun cs => String.mk cs

/-- The media type declared by the cover manifest item of a rendered
package manifest. -/
def opfCoverMediaType (s : String) : Option String :=
  extractBetween "id=\"cover\" media-type=\"" "\" />" s

/-! ## Concrete inputs used by witnesses and counterexamples -/

/-- A page of index 0 with JPEG type. -/
def pgJpg0 : Page := ⟨0, "u0", "jpg", "image/jpeg"⟩

/-- A page of index 1 with PNG type. -/
def pgPng1 : Page := ⟨1, "u1", "png", "image/png"⟩

/-- A two-page section in the expected order (index 0 first). -/
def secW : Section := ⟨"S", "su", [pgJpg0, pgPng1]⟩

def platW : Platform := ⟨"P", "pu"⟩

def epubW : Epub := ⟨platW, secW, "UUID-1"⟩

/-- A session whose page list starts with the index-1 PNG page while the
index-0 page (JPEG) sits second. -/
def epubC2 : Epub := ⟨platW, ⟨"S", "su", [pgPng1, pgJpg0]⟩, "UUID-1"⟩

/-- Two sessions over the same section with distinct freshly drawn uuids. -/
def epubS1 : Epub := ⟨platW, secW, "UUID-A"⟩

def epubS2 : Epub := ⟨platW, secW, "UUID-B"⟩

/-- Collaborators that fail at resource acquisition. -/
def colFail : Collaborators :=
  ⟨fun _ => Except.error (), fun _ _ _ => some "PKG"⟩

/-- Collaborators whose acquisition succeeds, leaves the page list as it is
and provides the origin image files of `secW`, and whose archiver succeeds. -/
def colOk : Collaborators :=
  ⟨fun s => Except.ok (s.page_list,
      [(originPathOf s.name "0.jpg", "IMG0"), (originPathOf s.name "1.png", "IMG1")]),
   fun _ _ _ => some "PKG"⟩

/-- The empty filesystem. -/
def fs0 : FS := ⟨[], []⟩

/-- The relation of C4 between single writes of two runs: same path, and
same content except at the two artifacts that embed the per-session uuid
(the package manifest and the navigation document). -/
def writesAgree (opfPath ncxPath : String) (w1 w2 : String × String) : Prop :=
  w1.1 = w2.1 ∧ (w1.1 ≠ opfPath → w1.1 ≠ ncxPath → w1.2 = w2.2)

/-! ## Helper lemmas -/

theorem str_append_cancel_left {a b c : String} (h : a ++ b = a ++ c) : b = c := by
  apply String.ext
  have h' := congrArg String.data h
  simp only [String.data_append] at h'
  exact List.append_cancel_left h'

theorem str_append_cancel_right {a b c : String} (h : a ++ c = b ++ c) : a = b := by
  apply String.ext
  have h' := congrArg String.data h
  simp only [String.data_append] at h'
  exact List.append_cancel_right h'

theorem toDigitsCore_digitHeaded (fuel : Nat) :
    ∀ (n : Nat) (ds : List Char), digitHeaded ds →
      digitHeaded (Nat.toDigitsCore 10 fuel n ds) := by
  induction fuel with
  | zero => intro n ds h; exact h
  | succ fuel ih =>
    intro n ds h
    show digitHeaded (if n / 10 = 0 then _ :: ds else Nat.toDigitsCore 10 fuel (n / 10) _)
    by_cases h0 : n / 10 = 0
    · simp only [h0, if_true]
      exact ⟨n % 10, Nat.mod_lt n (by norm_num), ds, rfl⟩
    · simp only [h0, if_false]
      exact ih (n / 10) _ ⟨n % 10, Nat.mod_lt n (by norm_num), ds, rfl⟩

/-- The decimal numeral of a natural number starts with a digit character. -/
theorem repr_digitHeaded (n : Nat) : digitHeaded (Nat.repr n).data := by
  show digitHeaded (Nat.toDigitsCore 10 (n + 1) n [])
  show digitHeaded (if n / 10 = 0 then _ :: [] else Nat.toDigitsCore 10 n (n / 10) _)
  by_cases h0 : n / 10 = 0
  · simp only [h0, if_true]
    exact ⟨n % 10, Nat.mod_lt n (by norm_num), [], rfl⟩
  · simp only [h0, if_false]
    exact toDigitsCore_digitHeaded n (n / 10) _
      ⟨n % 10, Nat.mod_lt n (by norm_num), [], rfl⟩

theorem digitChar_ne_of_lt_ten {m : Nat} (hm : m < 10) {c : Char}
    (hc : ¬ c.isDigit) : Nat.digitChar m ≠ c := by
  interval_cases m <;> (intro h; rw [← h] at hc; exact hc (by decide))

/-- A string beginning with a decimal numeral never equals a string that
begins with a non-digit character. -/
theorem repr_append_ne {n : Nat} {a : List Char} {c : Char} {b : List Char}
    (hc : ¬ c.isDigit) : (Nat.repr n).data ++ a ≠ c :: b := by
  obtain ⟨m, hm, rest, hr⟩ := repr_digitHeaded n
  rw [hr]
  intro h
  exact digitChar_ne_of_lt_ten hm hc (List.head_eq_of_cons_eq h)

/-! ## Loops as joins -/

theorem opfManifestLoop_eq_join (l : List Page) :
    opfManifestLoop l = joinStr (l.map fun pg => opfPageDocItem pg ++ opfImageItem pg) := by
  induction l with
  | nil => rfl
  | cons pg rest ih =>
    simp only [opfManifestLoop, List.map_cons, joinStr, ih, String.append_assoc]

theorem opfSpineLoop_eq_join (l : List Page) :
    opfSpineLoop l = joinStr (l.map opfSpineItemref) := by
  induction l with
  | nil => rfl
  | cons pg rest ih => simp only [opfSpineLoop, List.map_cons, joinStr, ih]

theorem ncxLoop_eq_join (l : List Page) :
    ncxLoop l = joinStr (l.map ncxNavPoint) := by
  induction l with
  | nil => rfl
  | cons pg rest ih => simp only [ncxLoop, List.map_cons, joinStr, ih]

/-! ## Claims about the document templater -/

/-- C8: `render_metadata_opf` fails exactly when `page_list` is empty: the
template dereferences `plist.0`, Tera reports the missing value, and the
source unwraps the resulting error, so the spec's at-least-one-page
invariant is a necessary precondition for the templater not to fail. -/
theorem render_metadata_opf_fails_iff_no_pages (e : Epub) (dt : String) :
    render_metadata_opf e dt = none ↔ e.«section».page_list = [] := by
  unfold render_metadata_opf
  cases e.«section».page_list <;> simp

/-- C6: the rendered navigation document is the fixed head (uuid and title)
followed by the root navigation point for the attribution page with fixed
label `关于`, fixed play-order `0` and target `start.xhtml`, followed by
exactly one navigation point per page of `page_list`, in order, whose id and
play-order are the page index, whose label is the page index followed by the
`P` suffix marker, and whose content target is `{index}.html`. -/
theorem render_toc_ncx_structure (e : Epub) :
    render_toc_ncx e =
      ncxHead e.uuid e.«section».name
        ++ ("\n      <navPoint id=\"navPoint-00\" playOrder=\"0\">\n         <navLabel>\n            <text>关于</text>\n         </navLabel>\n         <content src=\"start.xhtml\" />\n      </navPoint>\n      ")
        ++ joinStr (e.«section».page_list.map (fun pg =>
            "\n      <navPoint id=\"navPoint-" ++ toString pg.p ++ "\" playOrder=\""
              ++ toString pg.p ++ "\">\n         <navLabel>\n            <text>"
              ++ toString pg.p ++ "P</text>\n         </navLabel>\n         <content src=\""
              ++ toString pg.p ++ ".html\" />\n      </navPoint>\n      "))
        ++ ncxTail := by
  rw [render_toc_ncx, ncxLoop_eq_join]; rfl

/-- C1: for a nonempty `page_list` the rendered manifest is the fixed head
(identity block plus the navigation, stylesheet and start entries), then
exactly one page-document item and one image item per page, in `page_list`
order, then the cover entry, and its spine is the start itemref followed by
exactly one itemref per page in `page_list` order. -/
theorem render_metadata_opf_structure (e : Epub) (dt : String) (p0 : Page)
    (rest : List Page) (h : e.«section».page_list = p0 :: rest) :
    render_metadata_opf e dt =
      some (opfHead e.«section».name e.uuid dt
        ++ joinStr ((p0 :: rest).map fun pg => opfPageDocItem pg ++ opfImageItem pg)
        ++ ("\n      " ++ opfCoverItem p0)
        ++ opfSpineHead
        ++ joinStr ((p0 :: rest).map opfSpineItemref)
        ++ opfTail)
      ∧ ((p0 :: rest).map fun pg => opfPageDocItem pg ++ opfImageItem pg).length
          = e.«section».page_list.length
      ∧ ((p0 :: rest).map opfSpineItemref).length = e.«section».page_list.length := by
  refine ⟨?_, by simp [h], by simp [h]⟩
  simp [render_metadata_opf, h, opfManifestLoop_eq_join, opfSpineLoop_eq_join,
    String.append_assoc]

/-- Witness for C1 at a concrete two-page section. -/
theorem render_metadata_opf_structure_witness :
    render_metadata_opf epubW "D" =
      some (opfHead epubW.«section».name epubW.uuid "D"
        ++ joinStr ([pgJpg0, pgPng1].map fun pg => opfPageDocItem pg ++ opfImageItem pg)
        ++ ("\n      " ++ opfCoverItem pgJpg0)
        ++ opfSpineHead
        ++ joinStr ([pgJpg0, pgPng1].map opfSpineItemref)
        ++ opfTail)
      ∧ ([pgJpg0, pgPng1].map fun pg => opfPageDocItem pg ++ opfImageItem pg).length
          = epubW.«section».page_list.length
      ∧ ([pgJpg0, pgPng1].map opfSpineItemref).length = epubW.«section».page_list.length :=
  render_metadata_opf_structure epubW "D" pgJpg0 [pgPng1] rfl

/-- C2 counterexample: when the first element of `page_list` has index 1 and
PNG type while the page whose index field is 0 has JPEG type, the cover
entry of the rendered manifest carries media type `image/png` and extension
`png` — those of the first element — not those of the index-0 page. -/
theorem cover_media_type_counterexample :
    (render_metadata_opf epubC2 "D").bind opfCoverMediaType = some "image/png"
    ∧ (render_metadata_opf epubC2 "D").bind
        (extractBetween "<item href=\"cover." "\" id=\"cover\"") = some "png"
    ∧ (∃ pg ∈ epubC2.«section».page_list, pg.p = 0)
    ∧ (∀ pg ∈ epubC2.«section».page_list, pg.p = 0 →
        pg.mime = "image/jpeg" ∧ pg.extension = "jpg")
    ∧ ("image/png" : String) ≠ "image/jpeg" ∧ ("png" : String) ≠ "jpg" :=
  ⟨by rfl, by rfl, by decide, by decide, by decide, by decide⟩

/-- C2 amended: the cover entry emitted by `render_metadata_opf` carries the
media type and extension of the FIRST element of `page_list` (the template's
`plist.0`), which is the index-0 page only when that page sits first. -/
theorem cover_entry_matches_first_page (e : Epub) (dt : String) (p0 : Page)
    (rest : List Page) (h : e.«section».page_list = p0 :: rest) :
    ∃ pre post, render_metadata_opf e dt =
      some (pre ++ ("<item href=\"cover." ++ p0.extension
        ++ "\" id=\"cover\" media-type=\"" ++ p0.mime ++ "\" />") ++ post) := by
  refine ⟨opfHead e.«section».name e.uuid dt ++ opfManifestLoop (p0 :: rest) ++ "\n      ",
    opfSpineHead ++ opfSpineLoop (p0 :: rest) ++ opfTail, ?_⟩
  simp [render_metadata_opf, h, opfCoverItem, String.append_assoc]

/-- Witness for the amended C2 at a concrete input. -/
theorem cover_entry_matches_first_page_witness :
    ∃ pre post, render_metadata_opf epubC2 "D" =
      some (pre ++ ("<item href=\"cover." ++ pgPng1.extension
        ++ "\" id=\"cover\" media-type=\"" ++ pgPng1.mime ++ "\" />") ++ post) :=
  cover_entry_matches_first_page epubC2 "D" pgPng1 [pgJpg0] rfl

/-- C3: within one session the manifest and the navigation document embed
the session's single `uuid` field in fixed contexts — the UUID-scheme
identifier and the `dtb:uid` metadata are the same byte string — and two
sessions over the same Section whose freshly drawn identifiers differ embed
different identifiers: their rendered manifests and navigation documents
differ. -/
theorem uuid_identical_within_session_fresh_across (e1 e2 : Epub) (dt : String)
    (p0 : Page) (rest : List Page)
    (h1 : e1.«section».page_list = p0 :: rest)
    (hsec : e2.«section» = e1.«section»)
    (hne : e1.uuid ≠ e2.uuid) :
    (∃ a b c d : String,
      render_metadata_opf e1 dt = some (a ++ e1.uuid ++ b)
      ∧ render_toc_ncx e1 = c ++ e1.uuid ++ d
      ∧ render_metadata_opf e2 dt = some (a ++ e2.uuid ++ b)
      ∧ render_toc_ncx e2 = c ++ e2.uuid ++ d)
    ∧ render_metadata_opf e1 dt ≠ render_metadata_opf e2 dt
    ∧ render_toc_ncx e1 ≠ render_toc_ncx e2 := by
  have hopf1 : render_metadata_opf e1 dt =
      some ((opfHeadA ++ e1.«section».name ++ opfHeadB) ++ e1.uuid
        ++ (opfHeadC dt ++ opfManifestLoop (p0 :: rest) ++ "\n      "
          ++ opfCoverItem p0 ++ opfSpineHead ++ opfSpineLoop (p0 :: rest) ++ opfTail)) := by
    simp [render_metadata_opf, h1, opfHead, String.append_assoc]
  have hopf2 : render_metadata_opf e2 dt =
      some ((opfHeadA ++ e1.«section».name ++ opfHeadB) ++ e2.uuid
        ++ (opfHeadC dt ++ opfManifestLoop (p0 :: rest) ++ "\n      "
          ++ opfCoverItem p0 ++ opfSpineHead ++ opfSpineLoop (p0 :: rest) ++ opfTail)) := by
    simp [render_metadata_opf, hsec, h1, opfHead, String.append_assoc]
  have hncx1 : render_toc_ncx e1 =
      ncxHeadA ++ e1.uuid
        ++ (ncxHeadB e1.«section».name ++ ncxRootNavPoint ++ ncxLoop (p0 :: rest) ++ ncxTail) := by
    simp [render_toc_ncx, h1, ncxHead, String.append_assoc]
  have hncx2 : render_toc_ncx e2 =
      ncxHeadA ++ e2.uuid
        ++ (ncxHeadB e1.«section».name ++ ncxRootNavPoint ++ ncxLoop (p0 :: rest) ++ ncxTail) := by
    simp [render_toc_ncx, hsec, h1, ncxHead, String.append_assoc]
  refine ⟨⟨_, _, _, _, hopf1, hncx1, hopf2, hncx2⟩, ?_, ?_⟩
  · rw [hopf1, hopf2]
    intro hEq
    have hEq' := Option.some.inj hEq
    exact hne (str_append_cancel_left (str_append_cancel_right hEq'))
  · rw [hncx1, hncx2]
    intro hEq
    exact hne (str_append_cancel_left (str_append_cancel_right hEq))

/-! ## Claims about the export orchestrator `save` -/

/-- C5: if resource acquisition fails, `save` returns the acquisition-class
error and performs no subsequent step: the filesystem is untouched (no
directory created, no artifact written, no package file produced), the
session value is unchanged, and the result does not depend on the archiving
collaborator — it is never invoked. -/
theorem save_acquisition_failure_aborts (col : Collaborators) (e : Epub)
    (odir dt : String) (fs : FS) (u : Unit)
    (h : col.acquire e.«section» = Except.error u) :
    save col e odir dt fs = ⟨Except.error SaveErr.acquisitionFailure, e, fs, []⟩
    ∧ ∀ arch2 : FS → String → String → Option String,
        save ⟨col.acquire, arch2⟩ e odir dt fs = save col e odir dt fs := by
  refine ⟨by simp [save, h], fun arch2 => by simp [save, h]⟩

/-- Witness for C5: a concrete failing acquisition collaborator. -/
theorem save_acquisition_failure_aborts_witness :
    save colFail epubW "out" "D" fs0
        = ⟨Except.error SaveErr.acquisitionFailure, epubW, fs0, []⟩
    ∧ ∀ arch2 : FS → String → String → Option String,
        save ⟨colFail.acquire, arch2⟩ epubW "out" "D" fs0
          = save colFail epubW "out" "D" fs0 :=
  save_acquisition_failure_aborts colFail epubW "out" "D" fs0 () rfl

/-- The session value `save` leaves behind, in every branch: unchanged on
acquisition failure, otherwise the original session whose section carries
the acquired page list. -/
theorem save_epub_characterization (col : Collaborators) (e : Epub)
    (odir dt : String) (fs : FS) :
    (save col e odir dt fs).epub =
      match col.acquire e.«section» with
      | Except.error _ => e
      | Except.ok (pages', _) =>
        { e with «section» := { e.«section» with page_list := pages' } } := by
  unfold save
  cases col.acquire e.«section» with
  | error u => rfl
  | ok v =>
    obtain ⟨pages', origins⟩ := v
    dsimp only
    split
    · rfl
    · split
      · rfl
      · split
        · rfl
        · rfl

/-- C10: `save` never changes the `platform` and `uuid` fields of the
session; the `section` field is either unchanged (acquisition failed) or
its page list is replaced by exactly what the resource-acquisition
collaborator returned — no later step of `save` touches the section. -/
theorem save_frame (col : Collaborators) (e : Epub) (odir dt : String) (fs : FS) :
    (save col e odir dt fs).epub.platform = e.platform
    ∧ (save col e odir dt fs).epub.uuid = e.uuid
    ∧ ((save col e odir dt fs).epub.«section» = e.«section»
       ∨ ∃ pages' origins, col.acquire e.«section» = Except.ok (pages', origins)
           ∧ (save col e odir dt fs).epub.«section»
               = { e.«section» with page_list := pages' }) := by
  rw [save_epub_characterization]
  cases hacq : col.acquire e.«section» with
  | error u => exact ⟨rfl, rfl, Or.inl rfl⟩
  | ok v =>
    obtain ⟨pages', origins⟩ := v
    exact ⟨rfl, rfl, Or.inr ⟨pages', origins, rfl, rfl⟩⟩

/-- C7: when `save` succeeds, the returned path is the destination handed to
the archiver, `{output_dir}/{section.name}.epub`, with the package base
filename taken verbatim from the section name (which acquisition does not
change). -/
theorem save_ok_path (col : Collaborators) (e : Epub) (odir dt : String)
    (fs : FS) (r : String) (h : (save col e odir dt fs).res = Except.ok r) :
    r = odir ++ "/" ++ e.«section».name ++ ".epub" := by
  unfold save at h
  cases hacq : col.acquire e.«section» with
  | error u => rw [hacq] at h; simp at h
  | ok v =>
    obtain ⟨pages', origins⟩ := v
    rw [hacq] at h
    dsimp only at h
    split at h
    · simp at h
    · split at h
      · simp at h
      · split at h
        · simp at h
        · simp only [Except.ok.injEq] at h
          exact h.symm

/-- Witness for C7: a concrete successful run returns `out/S.epub`. -/
theorem save_ok_path_witness :
    (save colOk epubW "out" "D" fs0).res = Except.ok "out/S.epub"
    ∧ "out/S.epub" = "out" ++ "/" ++ epubW.«section».name ++ ".epub" :=
  ⟨by rfl, save_ok_path colOk epubW "out" "D" fs0 "out/S.epub" (by rfl)⟩

/-- Witness for C3: two concrete sessions over the same section with
distinct identifiers. -/
theorem uuid_identical_within_session_fresh_across_witness :
    (∃ a b c d : String,
      render_metadata_opf epubS1 "D" = some (a ++ epubS1.uuid ++ b)
      ∧ render_toc_ncx epubS1 = c ++ epubS1.uuid ++ d
      ∧ render_metadata_opf epubS2 "D" = some (a ++ epubS2.uuid ++ b)
      ∧ render_toc_ncx epubS2 = c ++ epubS2.uuid ++ d)
    ∧ render_metadata_opf epubS1 "D" ≠ render_metadata_opf epubS2 "D"
    ∧ render_toc_ncx epubS1 ≠ render_toc_ncx epubS2 :=
  uuid_identical_within_session_fresh_across epubS1 epubS2 "D" pgJpg0 [pgPng1]
    rfl rfl (by decide)

/-- C4: two runs of `save` over identical inputs (same collaborators,
section, platform, output directory, timestamp and initial filesystem) that
differ only in the per-session uuid perform writes to identical paths with
identical content, except at the two artifacts that embed the uuid — the
package manifest and the navigation document; with equal uuids the runs are
identical in full.  Every rendering function is a pure function of its
explicit inputs and the externally supplied timestamp. -/
theorem save_deterministic_up_to_uuid (col : Collaborators) (e1 e2 : Epub)
    (odir dt : String) (fs : FS)
    (hplat : e2.platform = e1.platform) (hsec : e2.«section» = e1.«section») :
    List.Forall₂
      (writesAgree (cacheDirOf e1.«section».name ++ "/" ++ "metadata.opf")
        (cacheDirOf e1.«section».name ++ "/" ++ "toc.ncx"))
      (save col e1 odir dt fs).writes (save col e2 odir dt fs).writes
    ∧ (e2.uuid = e1.uuid → save col e2 odir dt fs = save col e1 odir dt fs) := by
  have hRrefl : ∀ w : String × String,
      writesAgree (cacheDirOf e1.«section».name ++ "/" ++ "metadata.opf")
        (cacheDirOf e1.«section».name ++ "/" ++ "toc.ncx") w w :=
    fun w => ⟨rfl, fun _ _ => rfl⟩
  constructor
  case right =>
    intro hu
    obtain ⟨p1, s1, u1⟩ := e1
    obtain ⟨p2, s2, u2⟩ := e2
    simp only at hplat hsec hu
    subst hplat; subst hsec; subst hu; rfl
  case left =>
    unfold save
    rw [hsec, hplat]
    cases hacq : col.acquire e1.«section» with
    | error u => simp only [hacq]; exact List.Forall₂.nil
    | ok v =>
      obtain ⟨pages', origins⟩ := v
      simp only [hacq]
      have hstart : render_start_xhtml
            ⟨e1.platform, ⟨e1.«section».name, e1.«section».url, pages'⟩, e2.uuid⟩
          = render_start_xhtml
            ⟨e1.platform, ⟨e1.«section».name, e1.«section».url, pages'⟩, e1.uuid⟩ := by
        simp [render_start_xhtml]
      rw [hstart]
      rcases hpl : pagesLoop e1.«section».name (cacheDirOf e1.«section».name) pages'
          (((((List.foldl (fun f pr => f.write pr.1 pr.2) fs origins).mkdirAll odir).mkdirAll
                (cacheDirOf e1.«section».name)).mkdirAll
                (cacheDirOf e1.«section».name ++ "/META-INF")).write
            (cacheDirOf e1.«section».name ++ "/" ++ "start.xhtml")
            (render_start_xhtml
              ⟨e1.platform, ⟨e1.«section».name, e1.«section».url, pages'⟩, e1.uuid⟩))
          [(cacheDirOf e1.«section».name ++ "/" ++ "start.xhtml",
            render_start_xhtml
              ⟨e1.platform, ⟨e1.«section».name, e1.«section».url, pages'⟩, e1.uuid⟩)]
        with ⟨res, fsL, wsL⟩
      cases res with
      | error err => exact List.forall₂_same.2 (fun w _ => hRrefl w)
      | ok u =>
        cases u
        cases pages' with
        | nil =>
          dsimp only [render_metadata_opf]
          exact List.forall₂_same.2 (fun w _ => hRrefl w)
        | cons p0 ps =>
          dsimp only [render_metadata_opf]
          refine List.rel_append ?_ (List.Forall₂.cons (hRrefl _) List.Forall₂.nil)
          refine List.rel_append ?_
            (List.Forall₂.cons ⟨rfl, fun _ hne => absurd rfl hne⟩ List.Forall₂.nil)
          refine List.rel_append ?_ (List.Forall₂.cons (hRrefl _) List.Forall₂.nil)
          refine List.rel_append ?_ (List.Forall₂.cons (hRrefl _) List.Forall₂.nil)
          refine List.rel_append ?_
            (List.Forall₂.cons ⟨rfl, fun hne _ => absurd rfl hne⟩ List.Forall₂.nil)
          exact List.forall₂_same.2 (fun w _ => hRrefl w)

/-- Witness for C4: two concrete runs differing only in the uuid. -/
theorem save_deterministic_up_to_uuid_witness :
    List.Forall₂
      (writesAgree (cacheDirOf epubS1.«section».name ++ "/" ++ "metadata.opf")
        (cacheDirOf epubS1.«section».name ++ "/" ++ "toc.ncx"))
      (save colOk epubS1 "out" "D" fs0).writes (save colOk epubS2 "out" "D" fs0).writes
    ∧ (epubS2.uuid = epubS1.uuid →
        save colOk epubS2 "out" "D" fs0 = save colOk epubS1 "out" "D" fs0) :=
  save_deterministic_up_to_uuid colOk epubS1 epubS2 "out" "D" fs0 rfl rfl

/-! ## Path disequalities and the shape of the loop's writes -/

/-- A list headed by a character other than `c` never extends `cover.`. -/
theorem ne_cover_of_head {c : Char} (hc : c ≠ 'c') (ts : List Char) :
    ∀ l, (c :: ts) ≠ "cover.".data ++ l := by
  intro l h
  rw [show "cover.".data = 'c' :: "over.".data from rfl] at h
  exact hc (List.head_eq_of_cons_eq h)

/-- A path `{cd}/{t}` is no cover path when `t` does not extend `cover.`. -/
theorem cover_tail_ne (cd t ext : String)
    (h : ∀ l, t.data ≠ "cover.".data ++ l) :
    cd ++ "/" ++ t ≠ cd ++ "/" ++ ("cover." ++ ext) := by
  intro hEq
  have h2 : t = "cover." ++ ext := str_append_cancel_left hEq
  exact h ext.data ((congrArg String.data h2).trans (String.data_append _ _))

/-- A path whose tail starts with a decimal numeral is no cover path. -/
theorem cover_tail_ne_repr2 (cd : String) (n : Nat) (s ext : String) :
    cd ++ "/" ++ (toString n ++ s) ≠ cd ++ "/" ++ ("cover." ++ ext) := by
  intro hEq
  have h2 := str_append_cancel_left hEq
  have h3 := congrArg String.data h2
  rw [String.data_append, String.data_append] at h3
  exact repr_append_ne (by decide) h3

/-- As `cover_tail_ne_repr2`, for a tail of three parts. -/
theorem cover_tail_ne_repr3 (cd : String) (n : Nat) (s1 s2 ext : String) :
    cd ++ "/" ++ (toString n ++ s1 ++ s2) ≠ cd ++ "/" ++ ("cover." ++ ext) := by
  intro hEq
  have h2 := str_append_cancel_left hEq
  have h3 := congrArg String.data h2
  rw [String.data_append, String.data_append, String.data_append,
    List.append_assoc] at h3
  exact repr_append_ne (by decide) h3

/-- The container descriptor path is no cover path. -/
theorem container_path_ne_cover (cd ext : String) :
    cd ++ "/META-INF" ++ "/container.xml" ≠ cd ++ "/" ++ ("cover." ++ ext) := by
  intro hEq
  have h3 := congrArg String.data hEq
  rw [String.data_append, String.data_append, String.data_append,
    String.data_append, List.append_assoc, List.append_assoc] at h3
  have h4 := List.append_cancel_left h3
  injection h4 with h5 h6
  injection h6 with h7 h8
  exact absurd h7 (by decide)

/-- The writes of `save`'s per-page loop: they extend the incoming trace by
page-document writes, image writes, and — exactly for pages of index 0 —
cover writes; and when the loop succeeds it has recorded a cover write for
every page of index 0. -/
theorem pagesLoop_writes_shape (name cd : String) (l : List Page) :
    ∀ (fs : FS) (ws : List (String × String)),
    ∃ Δ, (pagesLoop name cd l fs ws).2.2 = ws ++ Δ
      ∧ (∀ w ∈ Δ,
          (∃ pg, pg ∈ l ∧ w.1 = cd ++ "/" ++ (toString pg.p ++ ".html"))
          ∨ (∃ pg, pg ∈ l ∧ w.1 = cd ++ "/" ++ (toString pg.p ++ "." ++ pg.extension))
          ∨ (∃ pg, pg ∈ l ∧ pg.p = 0 ∧ w.1 = cd ++ "/" ++ ("cover." ++ pg.extension)))
      ∧ ((pagesLoop name cd l fs ws).1 = Except.ok () →
          ∀ pg, pg ∈ l → pg.p = 0 →
            ∃ c, (cd ++ "/" ++ ("cover." ++ pg.extension), c) ∈ Δ) := by
  induction l with
  | nil =>
    intro fs ws
    exact ⟨[], by simp [pagesLoop], by simp, by simp⟩
  | cons pg rest ih =>
    intro fs ws
    dsimp only [pagesLoop]
    cases hl : FS.lookup (fs.write (cd ++ "/" ++ (toString pg.p ++ ".html"))
        (render_page_html (toString pg.p) (toString pg.p ++ "." ++ pg.extension)))
        (originPathOf name (toString pg.p ++ "." ++ pg.extension)) with
    | none =>
      refine ⟨[(cd ++ "/" ++ (toString pg.p ++ ".html"),
        render_page_html (toString pg.p) (toString pg.p ++ "." ++ pg.extension))],
        by simp, ?_, by simp⟩
      intro w hw
      simp only [List.mem_singleton] at hw
      subst hw
      exact Or.inl ⟨pg, List.mem_cons_self _ _, rfl⟩
    | some content =>
      dsimp only
      by_cases h0 : pg.p = 0
      · rw [if_pos h0]
        obtain ⟨Δr, hΔeq, hΔshape, hΔcover⟩ := ih
          (((fs.write (cd ++ "/" ++ (toString pg.p ++ ".html"))
              (render_page_html (toString pg.p) (toString pg.p ++ "." ++ pg.extension))).write
            (cd ++ "/" ++ (toString pg.p ++ "." ++ pg.extension)) content).write
            (cd ++ "/" ++ ("cover." ++ pg.extension)) content)
          ((ws ++ [(cd ++ "/" ++ (toString pg.p ++ ".html"),
              render_page_html (toString pg.p) (toString pg.p ++ "." ++ pg.extension))]
            ++ [(cd ++ "/" ++ (toString pg.p ++ "." ++ pg.extension), content)])
            ++ [(cd ++ "/" ++ ("cover." ++ pg.extension), content)])
        refine ⟨(cd ++ "/" ++ (toString pg.p ++ ".html"),
            render_page_html (toString pg.p) (toString pg.p ++ "." ++ pg.extension))
          :: (cd ++ "/" ++ (toString pg.p ++ "." ++ pg.extension), content)
          :: (cd ++ "/" ++ ("cover." ++ pg.extension), content) :: Δr, ?_, ?_, ?_⟩
        · rw [hΔeq]; simp
        · intro w hw
          simp only [List.mem_cons] at hw
          rcases hw with rfl | rfl | rfl | hw
          · exact Or.inl ⟨pg, List.mem_cons_self _ _, rfl⟩
          · exact Or.inr (Or.inl ⟨pg, List.mem_cons_self _ _, rfl⟩)
          · exact Or.inr (Or.inr ⟨pg, List.mem_cons_self _ _, h0, rfl⟩)
          · rcases hΔshape w hw with ⟨pg2, hm, hp⟩ | ⟨pg2, hm, hp⟩ | ⟨pg2, hm, hz, hp⟩
            · exact Or.inl ⟨pg2, List.mem_cons_of_mem _ hm, hp⟩
            · exact Or.inr (Or.inl ⟨pg2, List.mem_cons_of_mem _ hm, hp⟩)
            · exact Or.inr (Or.inr ⟨pg2, List.mem_cons_of_mem _ hm, hz, hp⟩)
        · intro hok pg2 hmem hz
          rcases List.mem_cons.1 hmem with rfl | hmem2
          · exact ⟨content, by simp⟩
          · obtain ⟨c, hc⟩ := hΔcover hok pg2 hmem2 hz
            exact ⟨c, by simp [hc]⟩
      · rw [if_neg h0]
        obtain ⟨Δr, hΔeq, hΔshape, hΔcover⟩ := ih
          ((fs.write (cd ++ "/" ++ (toString pg.p ++ ".html"))
              (render_page_html (toString pg.p) (toString pg.p ++ "." ++ pg.extension))).write
            (cd ++ "/" ++ (toString pg.p ++ "." ++ pg.extension)) content)
          (ws ++ [(cd ++ "/" ++ (toString pg.p ++ ".html"),
              render_page_html (toString pg.p) (toString pg.p ++ "." ++ pg.extension))]
            ++ [(cd ++ "/" ++ (toString pg.p ++ "." ++ pg.extension), content)])
        refine ⟨(cd ++ "/" ++ (toString pg.p ++ ".html"),
            render_page_html (toString pg.p) (toString pg.p ++ "." ++ pg.extension))
          :: (cd ++ "/" ++ (toString pg.p ++ "." ++ pg.extension), content) :: Δr, ?_, ?_, ?_⟩
        · rw [hΔeq]; simp
        · intro w hw
          simp only [List.mem_cons] at hw
          rcases hw with rfl | rfl | hw
          · exact Or.inl ⟨pg, List.mem_cons_self _ _, rfl⟩
          · exact Or.inr (Or.inl ⟨pg, List.mem_cons_self _ _, rfl⟩)
          · rcases hΔshape w hw with ⟨pg2, hm, hp⟩ | ⟨pg2, hm, hp⟩ | ⟨pg2, hm, hz, hp⟩
            · exact Or.inl ⟨pg2, List.mem_cons_of_mem _ hm, hp⟩
            · exact Or.inr (Or.inl ⟨pg2, List.mem_cons_of_mem _ hm, hp⟩)
            · exact Or.inr (Or.inr ⟨pg2, List.mem_cons_of_mem _ hm, hz, hp⟩)
        · intro hok pg2 hmem hz
          rcases List.mem_cons.1 hmem with rfl | hmem2
          · exact absurd hz h0
          · obtain ⟨c, hc⟩ := hΔcover hok pg2 hmem2 hz
            exact ⟨c, by simp [hc]⟩


/-- C9: in a successful `save`, a cover image file `cover.{ext}` is written
if and only if some page of the acquired page list has index 0; and the
manifest written always declares a cover entry derived from the FIRST
element of the page list, even when no page has index 0. -/
theorem cover_written_iff_index_zero (col : Collaborators) (e : Epub)
    (odir dt : String) (fs : FS) (r : String)
    (hok : (save col e odir dt fs).res = Except.ok r) :
    ((∃ ext c, (cacheDirOf e.«section».name ++ "/" ++ ("cover." ++ ext), c)
        ∈ (save col e odir dt fs).writes)
      ↔ ∃ pg ∈ (save col e odir dt fs).epub.«section».page_list, pg.p = 0)
    ∧ ∃ p0 rest opf,
        (save col e odir dt fs).epub.«section».page_list = p0 :: rest
        ∧ (cacheDirOf e.«section».name ++ "/" ++ "metadata.opf", opf)
            ∈ (save col e odir dt fs).writes
        ∧ ∃ pre post, opf = pre ++ ("<item href=\"cover." ++ p0.extension
            ++ "\" id=\"cover\" media-type=\"" ++ p0.mime ++ "\" />") ++ post := by
  unfold save at hok ⊢
  cases hacq : col.acquire e.«section» with
  | error u => rw [hacq] at hok; simp at hok
  | ok v =>
    obtain ⟨pages', origins⟩ := v
    rw [hacq] at hok
    dsimp only at hok ⊢
    revert hok
    rcases hpl : pagesLoop e.«section».name (cacheDirOf e.«section».name) pages'
        (((((List.foldl (fun f pr => f.write pr.1 pr.2) fs origins).mkdirAll odir).mkdirAll
              (cacheDirOf e.«section».name)).mkdirAll
              (cacheDirOf e.«section».name ++ "/META-INF")).write
          (cacheDirOf e.«section».name ++ "/" ++ "start.xhtml")
          (render_start_xhtml
            ⟨e.platform, ⟨e.«section».name, e.«section».url, pages'⟩, e.uuid⟩))
        [(cacheDirOf e.«section».name ++ "/" ++ "start.xhtml",
          render_start_xhtml
            ⟨e.platform, ⟨e.«section».name, e.«section».url, pages'⟩, e.uuid⟩)]
      with ⟨res, fsL, wsL⟩
    intro hok
    cases res with
    | error err => simp at hok
    | ok u =>
      cases u
      cases pages' with
      | nil => dsimp only [render_metadata_opf] at hok; simp at hok
      | cons p0 ps =>
        dsimp only [render_metadata_opf] at hok ⊢
        obtain ⟨Δ, hΔeq, hΔshape, hΔcover⟩ :=
          pagesLoop_writes_shape e.«section».name (cacheDirOf e.«section».name) (p0 :: ps)
            (((((List.foldl (fun f pr => f.write pr.1 pr.2) fs origins).mkdirAll odir).mkdirAll
                  (cacheDirOf e.«section».name)).mkdirAll
                  (cacheDirOf e.«section».name ++ "/META-INF")).write
              (cacheDirOf e.«section».name ++ "/" ++ "start.xhtml")
              (render_start_xhtml
                ⟨e.platform, ⟨e.«section».name, e.«section».url, p0 :: ps⟩, e.uuid⟩))
            [(cacheDirOf e.«section».name ++ "/" ++ "start.xhtml",
              render_start_xhtml
                ⟨e.platform, ⟨e.«section».name, e.«section».url, p0 :: ps⟩, e.uuid⟩)]
        rw [hpl] at hΔeq hΔcover
        dsimp only at hΔeq hΔcover
        constructor
        · constructor
          · rintro ⟨ext, c, hmem⟩
            simp only [List.mem_append, List.mem_singleton] at hmem
            rcases hmem with ((((hmem | ho) | hm) | hs) | hn) | hct
            · rw [hΔeq] at hmem
              rcases List.mem_append.1 hmem with hstart | hΔ
              · simp only [List.mem_singleton] at hstart
                have hfst := congrArg Prod.fst hstart
                exact absurd hfst.symm
                  (cover_tail_ne _ "start.xhtml" ext (fun l => ne_cover_of_head (by decide) _ l))
              · rcases hΔshape _ hΔ with ⟨pg2, hm2, hp⟩ | ⟨pg2, hm2, hp⟩ | ⟨pg2, hm2, hz, hp⟩
                · exact absurd hp.symm (cover_tail_ne_repr2 _ _ _ _)
                · exact absurd hp.symm (cover_tail_ne_repr3 _ _ _ _ _)
                · exact ⟨pg2, hm2, hz⟩
            · exact absurd (congrArg Prod.fst ho).symm
                (cover_tail_ne _ "metadata.opf" ext (fun l => ne_cover_of_head (by decide) _ l))
            · exact absurd (congrArg Prod.fst hm).symm
                (cover_tail_ne _ "mimetype" ext (fun l => ne_cover_of_head (by decide) _ l))
            · exact absurd (congrArg Prod.fst hs).symm
                (cover_tail_ne _ "stylesheet.css" ext (fun l => ne_cover_of_head (by decide) _ l))
            · exact absurd (congrArg Prod.fst hn).symm
                (cover_tail_ne _ "toc.ncx" ext (fun l => ne_cover_of_head (by decide) _ l))
            · exact absurd (congrArg Prod.fst hct).symm (container_path_ne_cover _ ext)
          · rintro ⟨pg, hmem, hz⟩
            obtain ⟨c, hc⟩ := hΔcover (by rfl) pg hmem hz
            refine ⟨pg.extension, c, ?_⟩
            have hin : (cacheDirOf e.«section».name ++ "/" ++ ("cover." ++ pg.extension), c)
                ∈ wsL := by
              rw [hΔeq]; exact List.mem_append_right _ hc
            exact List.mem_append_left _ (List.mem_append_left _ (List.mem_append_left _
              (List.mem_append_left _ (List.mem_append_left _ hin))))
        · refine ⟨p0, ps,
            opfHead e.«section».name e.uuid dt ++ opfManifestLoop (p0 :: ps) ++ "\n      "
              ++ opfCoverItem p0 ++ opfSpineHead ++ opfSpineLoop (p0 :: ps) ++ opfTail,
            rfl, ?_, ?_⟩
          · exact List.mem_append_left _ (List.mem_append_left _ (List.mem_append_left _
              (List.mem_append_left _ (List.mem_append_right _ (List.mem_singleton.2 rfl)))))
          · refine ⟨opfHead e.«section».name e.uuid dt ++ opfManifestLoop (p0 :: ps) ++ "\n      ",
              opfSpineHead ++ opfSpineLoop (p0 :: ps) ++ opfTail, ?_⟩
            simp [opfCoverItem, String.append_assoc]
/-- Witness for C9: a concrete successful run whose section has an index-0
page. -/
theorem cover_written_iff_index_zero_witness :
    ((∃ ext c, (cacheDirOf epubW.«section».name ++ "/" ++ ("cover." ++ ext), c)
        ∈ (save colOk epubW "out" "D" fs0).writes)
      ↔ ∃ pg ∈ (save colOk epubW "out" "D" fs0).epub.«section».page_list, pg.p = 0)
    ∧ ∃ p0 rest opf,
        (save colOk epubW "out" "D" fs0).epub.«section».page_list = p0 :: rest
        ∧ (cacheDirOf epubW.«section».name ++ "/" ++ "metadata.opf", opf)
            ∈ (save colOk epubW "out" "D" fs0).writes
        ∧ ∃ pre post, opf = pre ++ ("<item href=\"cover." ++ p0.extension
            ++ "\" id=\"cover\" media-type=\"" ++ p0.mime ++ "\" />") ++ post :=
  cover_written_iff_index_zero colOk epubW "out" "D" fs0 "out/S.epub" (by rfl)

end Manga
